import Mathlib

/-!
Verification of the physics core of the `Simulation-trajectoire` repository.

The Python sources are shallowly embedded over the real numbers: float
values become `ℝ`, `math.sqrt` becomes `Real.sqrt`, `math.exp` / `math.log`
become `Real.exp` / `Real.log`, and Python lists accumulated with `append`
become `List ℝ` extended on the right.  The unbounded `while True` loop of
`plot_3d/iterations.py` is embedded with an explicit fuel argument; the
status `running` means the concrete loop would still be going after that
many iterations.  Trigonometric values `cos(radians(theta))` and
`sin(radians(theta))` are passed as explicit real inputs `cosTh`, `sinTh`.
-/

noncomputable section

namespace Constantes

/-- Gravitational constant `G = 1.0` from `src/constantes.py`. -/
def G : ℝ := 1.0

/-- Solar mass `M_sun = 2.0` from `src/constantes.py`. -/
def M_sun : ℝ := 2.0

/-- Central body radius `sun_radius = 0.3` from `src/constantes.py`. -/
def sun_radius : ℝ := 0.3

/-- Depth coefficient `k_depth = 0.1` from `src/constantes.py`. -/
def k_depth : ℝ := 0.1

/-- Sigma coefficient `k_sigma = 2.0` from `src/constantes.py`. -/
def k_sigma : ℝ := 2.0

/-- Module-level `depth = k_depth * M_sun` from `src/constantes.py`. -/
def depth : ℝ := k_depth * M_sun

/-- Module-level `sigma = k_sigma * sun_radius` from `src/constantes.py`. -/
def sigma : ℝ := k_sigma * sun_radius

end Constantes

/-- Embedding of class `Drap` from `src/drap.py`: the constructor stores
`_depth = k_depth * sun_mass`, `_sigma = k_sigma * sun_radius`, `_mu = mu`. -/
structure Drap where
  _depth : ℝ
  _sigma : ℝ
  _mu : ℝ

/-- Constructor `Drap.__init__` from `src/drap.py`. -/
def Drap.init (k_depth k_sigma sun_mass sun_radius mu : ℝ) : Drap :=
  { _depth := k_depth * sun_mass, _sigma := k_sigma * sun_radius, _mu := mu }

/-- Static method `Drap.h` from `src/drap.py`.  It is a `@staticmethod`
that reads the module-level constants `depth` and `sigma` imported from
`constantes.py`; it takes no `self` and touches no instance attribute. -/
def Drap.h (x y : ℝ) : ℝ :=
  let r2 := x ^ 2 + y ^ 2;
  -Constantes.depth * Real.exp (-r2 / (2 * Constantes.sigma ^ 2))

/-- Embedding of class `SurfaceField` from `src/gui/components/simulation.py`:
stores `_depth`, `_sigma`, `_friction`. -/
structure SurfaceField where
  depth : ℝ
  sigma : ℝ
  friction : ℝ

/-- Method `SurfaceField.h` from `src/gui/components/simulation.py`:
`denom = 2.0 * sigma**2 if sigma > 0.0 else 1e-12`, then
`-depth * exp(-r2 / denom)`. -/
def SurfaceField.h (f : SurfaceField) (x y : ℝ) : ℝ :=
  let r2 := x * x + y * y
  let denom := if f.sigma > 0 then 2 * f.sigma ^ 2 else 1e-12;
  -f.depth * Real.exp (-r2 / denom)

/-- Method `SurfaceField.gradient` from `src/gui/components/simulation.py`. -/
def SurfaceField.gradient (f : SurfaceField) (x y : ℝ) : ℝ × ℝ :=
  let r2 := x * x + y * y
  let denom := if f.sigma > 0 then 2 * f.sigma ^ 2 else 1e-12
  let e := Real.exp (-r2 / denom)
  let inv_sigma2 := 1 / (if f.sigma > 0 then f.sigma ^ 2 else 1e-12)
  (f.depth * e * x * inv_sigma2, f.depth * e * y * inv_sigma2)

namespace Simulation

/-- Physics fields of the dataclass `SimulationParams` from
`src/gui/components/simulation.py` (the plotting-style fields, which take
no part in the dynamics, are omitted). -/
structure SimulationParams where
  earth_gravity : ℝ
  friction_coefficient : ℝ
  time_step : ℝ
  num_steps : ℕ
  center_radius : ℝ
  center_mass : ℝ
  surface_depth : ℝ
  surface_sigma : ℝ
  initial_position_x : ℝ
  initial_position_y : ℝ
  initial_velocity_x : ℝ
  initial_velocity_y : ℝ

/-- Mutable state of `run_simulation` from `src/gui/components/simulation.py`:
current position and velocity, the history lists `xs`, `ys`, `zs`, the
`collided` flag and the `steps_run` counter. -/
structure RunState where
  x : ℝ
  y : ℝ
  vx : ℝ
  vy : ℝ
  xs : List ℝ
  ys : List ℝ
  zs : List ℝ
  collided : Bool
  steps_run : ℕ

/-- Body of one iteration of the `for` loop of `run_simulation` (after the
collision test has been passed): gradient, acceleration `-g∇h - c·v`,
explicit Euler update (velocity first, then position with the new
velocity), and the history appends. -/
def runStep (g c dt : ℝ) (f : SurfaceField) (s : RunState) : RunState :=
  let grad := f.gradient s.x s.y
  let ax := -g * grad.1 - c * s.vx
  let ay := -g * grad.2 - c * s.vy
  let vx := s.vx + ax * dt
  let vy := s.vy + ay * dt
  let x := s.x + vx * dt
  let y := s.y + vy * dt
  { x := x, y := y, vx := vx, vy := vy,
    xs := s.xs ++ [x], ys := s.ys ++ [y], zs := s.zs ++ [f.h x y],
    collided := false, steps_run := s.steps_run + 1 }

/-- The `for i in range(steps)` loop of `run_simulation`: at each iteration
the collision test `r < R_center` runs first (a `break` leaves the state
untouched apart from the `collided` flag), then `runStep` executes. -/
def runLoop (g c dt R_center : ℝ) (f : SurfaceField) : ℕ → RunState → RunState
  | 0, s => s
  | fuel + 1, s =>
    if Real.sqrt (s.x * s.x + s.y * s.y) < R_center then
      { s with collided := true }
    else
      runLoop g c dt R_center f fuel (runStep g c dt f s)

/-- Function `run_simulation` from `src/gui/components/simulation.py`. -/
def run_simulation (p : SimulationParams) : RunState :=
  runLoop p.earth_gravity p.friction_coefficient p.time_step p.center_radius
    { depth := p.surface_depth, sigma := p.surface_sigma,
      friction := p.friction_coefficient }
    p.num_steps
    { x := p.initial_position_x, y := p.initial_position_y,
      vx := p.initial_velocity_x, vy := p.initial_velocity_y,
      xs := [], ys := [], zs := [], collided := false, steps_run := 0 }

end Simulation

namespace Plot3D

/-- Denominator `2.0 * pi * float(T)` that `deformation` and `gradient_xy`
in `src/gui/components/plot_3d/model.py` divide by.  Unlike the sigma
guard of `SurfaceField`, no epsilon guard is applied to the tension. -/
def deformationDenom (T : ℝ) : ℝ := 2 * Real.pi * T

/-- Function `deformation` from `src/gui/components/plot_3d/model.py`:
`r_use = max(r, center_radius)`, then `-F / (2πT) * log(R / r_use)`. -/
def deformation (r R T F center_radius : ℝ) : ℝ :=
  let r_use := max r center_radius;
  -F / deformationDenom T * Real.log (R / r_use)

/-- Function `gradient_xy` from `src/gui/components/plot_3d/model.py`,
returning `(z, dz_dx, dz_dy)`. -/
def gradient_xy (x y R T F center_radius : ℝ) : ℝ × ℝ × ℝ :=
  let r := Real.sqrt (x * x + y * y);
  let z := deformation r R T F center_radius;
  if r > 1e-12 then
    let coeff := F / deformationDenom T;
    (z, coeff * (x / (r * r)), coeff * (y / (r * r)))
  else
    (z, 0, 0)

/-- Physics fields of the dataclass `SimulationParams` from
`src/gui/components/plot_3d/simulation_params.py` (plot-styling fields
omitted).  `cosTh` and `sinTh` stand for the float values
`cos(radians(theta))` and `sin(radians(theta))` that the source computes
from the `theta` field (in degrees). -/
structure SimulationParams where
  time_step : ℝ
  num_steps : ℕ
  g : ℝ
  center_radius : ℝ
  center_weight : ℝ
  surface_tension : ℝ
  surface_radius : ℝ
  x0 : ℝ
  y0 : ℝ
  v_i : ℝ
  cosTh : ℝ
  sinTh : ℝ
  friction_coef : ℝ

/-- Property `SimulationParams.vx0` from `simulation_params.py`:
`rx, tx = (-x0/r, -y0/r)` when `r > 1e-12`, else the fallback `(-1, 0)`;
result `v_i * (cos th * rx + sin th * tx)`. -/
def SimulationParams.vx0 (p : SimulationParams) : ℝ :=
  let r := Real.sqrt (p.x0 * p.x0 + p.y0 * p.y0);
  let rxtx := if r > 1e-12 then (-p.x0 / r, -p.y0 / r) else (-1, 0);
  p.v_i * (p.cosTh * rxtx.1 + p.sinTh * rxtx.2)

/-- Property `SimulationParams.vy0` from `simulation_params.py`:
`ry, ty = (-y0/r, x0/r)` when `r > 1e-12`, else the fallback `(0, 1)`;
result `v_i * (cos th * ry + sin th * ty)`. -/
def SimulationParams.vy0 (p : SimulationParams) : ℝ :=
  let r := Real.sqrt (p.x0 * p.x0 + p.y0 * p.y0);
  let ryty := if r > 1e-12 then (-p.y0 / r, p.x0 / r) else (0, 1);
  p.v_i * (p.cosTh * ryty.1 + p.sinTh * ryty.2)

/-- Mass `m = F / g if g != 0.0 else 1.0` computed by `iterations` in
`src/gui/components/plot_3d/iterations.py`. -/
def iterMass (g F : ℝ) : ℝ := if g ≠ 0 then F / g else 1

/-- Clamping of the initial position in `iterations`
(`src/gui/components/plot_3d/iterations.py`, lines 66-80): when
`r0 = sqrt(x² + y²) ≥ R` the position is scaled by `(R - 1e-6)/r0`
(degenerate origin case: `(min(R - 1e-6, R), 0)`) and a warning is
printed, modelled by the returned boolean. -/
def clampInitial (x y R : ℝ) : ℝ × ℝ × Bool :=
  let r0 := Real.sqrt (x * x + y * y);
  if r0 ≥ R then
    if r0 > 1e-12 then
      let scale := (R - 1e-6) / r0;
      (x * scale, y * scale, true)
    else
      (min (R - 1e-6) R, 0, true)
  else
    (x, y, false)

/-- Outcome of the `while True` loop of `iterations`: which `break` (if
any) ended the loop.  `running` means the loop is still going. -/
inductive IterStatus where
  | running
  | escaped
  | collided

/-- Mutable state of `iterations`: position, velocity, the history lists
`xs`, `ys`, `zs` and the `steps_run` counter. -/
structure IterState where
  x : ℝ
  y : ℝ
  vx : ℝ
  vy : ℝ
  xs : List ℝ
  ys : List ℝ
  zs : List ℝ
  steps_run : ℕ

/-- Body of one iteration of the `while True` loop of `iterations`:
height/gradient at the current position, `a = -g ∇z - (coef/m) v`,
explicit Euler update, then the history appends (note the appended `z`
is the height at the position before the update). -/
def iterStep (g dt R T F center_radius fric m : ℝ) (s : IterState) : IterState :=
  let zg := gradient_xy s.x s.y R T F center_radius;
  let ax := -g * zg.2.1 - (fric / m) * s.vx;
  let ay := -g * zg.2.2 - (fric / m) * s.vy;
  let vx := s.vx + ax * dt;
  let vy := s.vy + ay * dt;
  let x := s.x + vx * dt;
  let y := s.y + vy * dt;
  { x := x, y := y, vx := vx, vy := vy,
    xs := s.xs ++ [x], ys := s.ys ++ [y], zs := s.zs ++ [zg.1],
    steps_run := s.steps_run + 1 }

/-- The `while True` loop of `iterations`, embedded with explicit fuel.
After each step the stop conditions run in source order: first
`r >= R` (escape), then `r <= center_radius` (collision).  The source
loop has no other exit; in particular it never consults `num_steps`. -/
def iterLoop (g dt R T F center_radius fric m : ℝ) :
    ℕ → IterState → IterState × IterStatus
  | 0, s => (s, IterStatus.running)
  | fuel + 1, s =>
    let s' := iterStep g dt R T F center_radius fric m s;
    let r := Real.sqrt (s'.x * s'.x + s'.y * s'.y);
    if r ≥ R then
      (s', IterStatus.escaped)
    else if r ≤ center_radius then
      (s', IterStatus.collided)
    else
      iterLoop g dt R T F center_radius fric m fuel s'

/-- Function `iterations` from `src/gui/components/plot_3d/iterations.py`
(fuel-indexed).  The initial position is clamped by `clampInitial`; the
initial velocity comes from the `vx0` / `vy0` properties evaluated on the
original (unclamped) `x0`, `y0`. -/
def iterations (p : SimulationParams) (fuel : ℕ) : IterState × IterStatus :=
  let m := iterMass p.g p.center_weight;
  let c := clampInitial p.x0 p.y0 p.surface_radius;
  iterLoop p.g p.time_step p.surface_radius p.surface_tension p.center_weight
    p.center_radius p.friction_coef m fuel
    { x := c.1, y := c.2.1, vx := p.vx0, vy := p.vy0,
      xs := [], ys := [], zs := [], steps_run := 0 }

end Plot3D

/-- Euclidean norm of a pair, as `np.linalg.norm` computes it on a
2-vector. -/
def norm2 (v : ℝ × ℝ) : ℝ := Real.sqrt (v.1 * v.1 + v.2 * v.2)

namespace SimNewton

/-- Inner function `accel` of `build_newton_orbit_2d_figure` from
`src/gui/components/plot_2d/sim_newton.py`: `r = max(norm(r_vec), 1e-12)`,
`r_hat = r_vec / r`, `a_mag = mu / r²`, result `-a_mag * r_hat - γ v`. -/
def accel (mu gamma : ℝ) (r_vec v_vec : ℝ × ℝ) : ℝ × ℝ :=
  let r := max (norm2 r_vec) 1e-12;
  let r_hat := (r_vec.1 / r, r_vec.2 / r);
  let a_mag := mu / r ^ 2;
  (-a_mag * r_hat.1 - gamma * v_vec.1, -a_mag * r_hat.2 - gamma * v_vec.2)

/-- State carried across iterations of the Verlet loop in
`build_newton_orbit_2d_figure`: position `r`, velocity `v` and the
acceleration `a` computed at the end of the previous iteration. -/
structure VerletState where
  r : ℝ × ℝ
  v : ℝ × ℝ
  a : ℝ × ℝ

/-- Initialisation `a = accel(r, v)` before the Verlet loop. -/
def verletInit (mu gamma : ℝ) (r v : ℝ × ℝ) : VerletState :=
  { r := r, v := v, a := accel mu gamma r v }

/-- Body of one iteration of the Verlet loop of
`build_newton_orbit_2d_figure` (lines 73-78):
`r_next = r + v dt + 0.5 a dt²`, `v_half = v + 0.5 a dt`,
`a_next = accel(r_next, v_half)`, `v_next = v_half + 0.5 a_next dt`. -/
def verletStep (mu gamma dt : ℝ) (s : VerletState) : VerletState :=
  let r_next := (s.r.1 + s.v.1 * dt + 0.5 * s.a.1 * dt ^ 2,
                 s.r.2 + s.v.2 * dt + 0.5 * s.a.2 * dt ^ 2);
  let v_half := (s.v.1 + 0.5 * s.a.1 * dt, s.v.2 + 0.5 * s.a.2 * dt);
  let a_next := accel mu gamma r_next v_half;
  let v_next := (v_half.1 + 0.5 * a_next.1 * dt, v_half.2 + 0.5 * a_next.2 * dt);
  { r := r_next, v := v_next, a := a_next }

end SimNewton

/-- Modelled from the spec: counterclockwise rotation by 90 degrees of a
plane vector, `(a, b) ↦ (-b, a)`. -/
def rotCCW (v : ℝ × ℝ) : ℝ × ℝ := (-v.2, v.1)

/-- Modelled from the spec: clockwise rotation by 90 degrees of a plane
vector, `(a, b) ↦ (b, -a)`. -/
def rotCW (v : ℝ × ℝ) : ℝ × ℝ := (v.2, -v.1)

/-- Modelled from the spec (§6): the inward radial unit vector at the
start position, pointing from `(x0, y0)` toward the origin, with the
degenerate fallback `(-1, 0)` when the start position is at the origin
(`r ≤ 1e-12`). -/
def specRhat (x0 y0 : ℝ) : ℝ × ℝ :=
  let r := Real.sqrt (x0 * x0 + y0 * y0);
  if r > 1e-12 then (-x0 / r, -y0 / r) else (-1, 0)

/-- Modelled from the spec as the claim words it: the tangential unit
vector is the 90°-counterclockwise rotation of `r̂`, except that at the
origin the claimed fallback `t̂ = (0, 1)` is used. -/
def specThatCCW (x0 y0 : ℝ) : ℝ × ℝ :=
  let r := Real.sqrt (x0 * x0 + y0 * y0);
  if r > 1e-12 then rotCCW (specRhat x0 y0) else (0, 1)

/-- Modelled from the spec (§6): derived initial velocity
`v = v_i·(cos θ · r̂ + sin θ · t̂)` with `t̂` the counterclockwise rotation
of `r̂`, as the claim states it. -/
def specV0CCW (x0 y0 v_i cosTh sinTh : ℝ) : ℝ × ℝ :=
  let rh := specRhat x0 y0;
  let th := specThatCCW x0 y0;
  (v_i * (cosTh * rh.1 + sinTh * th.1), v_i * (cosTh * rh.2 + sinTh * th.2))

/-- Amended tangential convention: the tangential unit vector actually
used by the code is the 90°-clockwise rotation of `r̂` (equivalently, the
counterclockwise rotation of the outward radial unit vector); note
`rotCW (-1, 0) = (0, 1)`, so the degenerate fallback needs no separate
case. -/
def specThatCW (x0 y0 : ℝ) : ℝ × ℝ := rotCW (specRhat x0 y0)

/-- Amended derived initial velocity: `v = v_i·(cos θ · r̂ + sin θ · t̂)`
with `t̂` the clockwise rotation of `r̂`. -/
def specV0CW (x0 y0 v_i cosTh sinTh : ℝ) : ℝ × ℝ :=
  let rh := specRhat x0 y0;
  let th := specThatCW x0 y0;
  (v_i * (cosTh * rh.1 + sinTh * th.1), v_i * (cosTh * rh.2 + sinTh * th.2))

/-- Modelled from the spec (§4.2, Kinematics — Explicit Euler): given the
field gradient `(hx, hy)` at the current position, acceleration
`a = -g·∇h - c·v` with the friction coefficient `c` applied directly to
the current velocity, then `v' = v + a·dt` and `x' = x + v'·dt`.
Returns `(x', y', vx', vy')`. -/
def specEulerStep (hx hy g c dt x y vx vy : ℝ) : ℝ × ℝ × ℝ × ℝ :=
  let ax := -g * hx - c * vx;
  let ay := -g * hy - c * vy;
  let vx' := vx + ax * dt;
  let vy' := vy + ay * dt;
  (x + vx' * dt, y + vy' * dt, vx', vy')

/-- Modelled from the spec (§4.3 / C6): the acceleration function of the
orbital variant, inverse-square central attraction `-(G·M/r²)·r̂` plus
linear drag `-γ·v`, with `r̂ = r / ‖r‖`. -/
def specAccel (mu gamma : ℝ) (r v : ℝ × ℝ) : ℝ × ℝ :=
  let rn := norm2 r;
  (-(mu / rn ^ 2) * (r.1 / rn) - gamma * v.1,
   -(mu / rn ^ 2) * (r.2 / rn) - gamma * v.2)

/-- Modelled from the spec (§4.3): one velocity-Verlet step
`r_next = r + v·dt + 0.5·a·dt²`, `v_half = v + 0.5·a·dt`,
`a_next = a(r_next, v_half)`, `v_next = v_half + 0.5·a_next·dt`,
with `a` the acceleration carried in the state. -/
def specVerletStep (mu gamma dt : ℝ) (s : SimNewton.VerletState) :
    SimNewton.VerletState :=
  let r_next := (s.r.1 + s.v.1 * dt + 0.5 * s.a.1 * dt ^ 2,
                 s.r.2 + s.v.2 * dt + 0.5 * s.a.2 * dt ^ 2);
  let v_half := (s.v.1 + 0.5 * s.a.1 * dt, s.v.2 + 0.5 * s.a.2 * dt);
  let a_next := specAccel mu gamma r_next v_half;
  let v_next := (v_half.1 + 0.5 * a_next.1 * dt, v_half.2 + 0.5 * a_next.2 * dt);
  { r := r_next, v := v_next, a := a_next }

/-- Modelled from the spec (claim C9): the Gaussian height a `Drap`
instance would evaluate if it computed the documented formula from the
parameters it was constructed with (`D = self._depth`, `S = self._sigma`). -/
def specDrapH (d : Drap) (x y : ℝ) : ℝ :=
  -d._depth * Real.exp (-(x ^ 2 + y ^ 2) / (2 * d._sigma ^ 2))

/-- Radius `sqrt(x² + y²)` of the `i`-th recorded history entry (default
`0` out of range), used to state the recorded-radius properties. -/
def radiusAt (xs ys : List ℝ) (i : ℕ) : ℝ :=
  Real.sqrt (xs.getD i 0 * xs.getD i 0 + ys.getD i 0 * ys.getD i 0)

/-- Membrane height that `iterations` records at history index `i`: the
height at the previously recorded position, and at the (clamped) initial
position `b` for `i = 0`. -/
def heightAt (R T F cr : ℝ) (b : ℝ × ℝ) (xs ys : List ℝ) (i : ℕ) : ℝ :=
  if i = 0 then (Plot3D.gradient_xy b.1 b.2 R T F cr).1
  else (Plot3D.gradient_xy (xs.getD (i - 1) 0) (ys.getD (i - 1) 0) R T F cr).1

/-- Concrete membrane configuration used by the witnesses: no gravity and
no friction, so the particle moves in a straight line from `(0.5, 0)` with
derived velocity `(-0.15, 0)` and reaches `r = 0.2 = center_radius` after
two steps of size `dt = 1`. -/
def demoParams : Plot3D.SimulationParams :=
  { time_step := 1, num_steps := 800, g := 0, center_radius := 0.2,
    center_weight := 5, surface_tension := 1, surface_radius := 1,
    x0 := 0.5, y0 := 0, v_i := 0.15, cosTh := 1, sinTh := 0,
    friction_coef := 0 }

/-- Concrete Gaussian-well configuration used by the witnesses and the C4
counterexample: flat surface (`depth = 0`), no friction, start `(0.3, 0)`
with velocity `(-0.1, 0)` and `dt = 1`, so the recorded radii are `0.2`
(exactly the central radius, which does NOT trigger the strict `r <
R_center` collision test) and then `0.1` (which does). -/
def rsParams : Simulation.SimulationParams :=
  { earth_gravity := 9.81, friction_coefficient := 0, time_step := 1,
    num_steps := 5, center_radius := 0.2, center_mass := 1,
    surface_depth := 0, surface_sigma := 0.05,
    initial_position_x := 0.3, initial_position_y := 0,
    initial_velocity_x := -0.1, initial_velocity_y := 0 }

/-! ### Helper lemmas -/

lemma sqrt_xx (a : ℝ) (h : 0 ≤ a) : Real.sqrt (a * a + 0 * 0) = a := by
  rw [show a * a + 0 * 0 = a * a by ring, Real.sqrt_mul_self h]

lemma runLoop_succ (g c dt Rc : ℝ) (f : SurfaceField) (fuel : ℕ)
    (s : Simulation.RunState) :
    Simulation.runLoop g c dt Rc f (fuel + 1) s =
      if Real.sqrt (s.x * s.x + s.y * s.y) < Rc then
        { s with collided := true }
      else
        Simulation.runLoop g c dt Rc f fuel (Simulation.runStep g c dt f s) := by
  simp only [Simulation.runLoop]

lemma iterLoop_succ (g dt R T F cr fric m : ℝ) (fuel : ℕ)
    (s : Plot3D.IterState) :
    Plot3D.iterLoop g dt R T F cr fric m (fuel + 1) s =
      (let s' := Plot3D.iterStep g dt R T F cr fric m s;
       let r := Real.sqrt (s'.x * s'.x + s'.y * s'.y);
       if r ≥ R then
         (s', Plot3D.IterStatus.escaped)
       else if r ≤ cr then
         (s', Plot3D.IterStatus.collided)
       else
         Plot3D.iterLoop g dt R T F cr fric m fuel s') := by
  simp only [Plot3D.iterLoop]

/-- Bounded-steps invariant of the Gaussian-well loop: each executed
iteration adds one to `steps_run`, and there are at most `fuel` of them. -/
lemma runLoop_steps_le (g c dt Rc : ℝ) (f : SurfaceField) (fuel : ℕ)
    (s : Simulation.RunState) :
    (Simulation.runLoop g c dt Rc f fuel s).steps_run ≤ s.steps_run + fuel := by
  induction fuel generalizing s with
  | zero => simp [Simulation.runLoop]
  | succ n ih =>
    rw [runLoop_succ]
    by_cases h : Real.sqrt (s.x * s.x + s.y * s.y) < Rc
    · simp [h]
    · rw [if_neg h]
      calc (Simulation.runLoop g c dt Rc f n (Simulation.runStep g c dt f s)).steps_run
          ≤ (Simulation.runStep g c dt f s).steps_run + n := ih _
        _ ≤ s.steps_run + (n + 1) := by
            simp [Simulation.runStep]; omega

/-- Fixed-point behaviour of the membrane loop at the configuration
`g = 0`, `fric = 0`, start `(0.3, 0)` at rest, `R = 1`,
`center_radius = 0.2`: the state never moves, neither stop condition can
fire, and the loop keeps running, one `steps_run` increment per
iteration. -/
lemma iterLoop_stuck (fuel : ℕ) (s : Plot3D.IterState)
    (hx : s.x = 0.3) (hy : s.y = 0) (hvx : s.vx = 0) (hvy : s.vy = 0) :
    (Plot3D.iterLoop 0 0.01 1 1 5 0.2 0 1 fuel s).2 = Plot3D.IterStatus.running ∧
    (Plot3D.iterLoop 0 0.01 1 1 5 0.2 0 1 fuel s).1.steps_run = s.steps_run + fuel := by
  induction fuel generalizing s with
  | zero => simp [Plot3D.iterLoop]
  | succ n ih =>
    have hx' : (Plot3D.iterStep 0 0.01 1 1 5 0.2 0 1 s).x = 0.3 := by
      simp [Plot3D.iterStep, hx, hvx]
    have hy' : (Plot3D.iterStep 0 0.01 1 1 5 0.2 0 1 s).y = 0 := by
      simp [Plot3D.iterStep, hy, hvy]
    have hvx' : (Plot3D.iterStep 0 0.01 1 1 5 0.2 0 1 s).vx = 0 := by
      simp [Plot3D.iterStep, hvx]
    have hvy' : (Plot3D.iterStep 0 0.01 1 1 5 0.2 0 1 s).vy = 0 := by
      simp [Plot3D.iterStep, hvy]
    have hsr : (Plot3D.iterStep 0 0.01 1 1 5 0.2 0 1 s).steps_run = s.steps_run + 1 := by
      simp [Plot3D.iterStep]
    have hr : Real.sqrt ((Plot3D.iterStep 0 0.01 1 1 5 0.2 0 1 s).x *
        (Plot3D.iterStep 0 0.01 1 1 5 0.2 0 1 s).x +
        (Plot3D.iterStep 0 0.01 1 1 5 0.2 0 1 s).y *
        (Plot3D.iterStep 0 0.01 1 1 5 0.2 0 1 s).y) = 0.3 := by
      rw [hx', hy']
      exact sqrt_xx 0.3 (by norm_num)
    rw [iterLoop_succ]
    simp only []
    rw [hr, if_neg (by norm_num), if_neg (by norm_num)]
    rcases ih (Plot3D.iterStep 0 0.01 1 1 5 0.2 0 1 s) hx' hy' hvx' hvy' with ⟨h1, h2⟩
    refine ⟨h1, ?_⟩
    rw [h2, hsr]
    omega

/-- C1: the step budget is a hard upper bound for the Gaussian-well runner
`run_simulation`, but NOT for the membrane runner `iterations`: its
`while True` loop never consults `num_steps`, and at a configuration where
neither stop condition can fire (zero gravity, zero friction, particle at
rest strictly between the central radius and the boundary) the loop is
still running after `num_steps + 1 = 801` iterations, with
`steps_run = 801 > 800`. -/
theorem step_budget_not_always_enforced :
    (∀ p : Simulation.SimulationParams,
      (Simulation.run_simulation p).steps_run ≤ p.num_steps)
    ∧ ((Plot3D.iterations
        { time_step := 0.01, num_steps := 800, g := 0, center_radius := 0.2,
          center_weight := 5, surface_tension := 1, surface_radius := 1,
          x0 := 0.3, y0 := 0, v_i := 0, cosTh := 1, sinTh := 0,
          friction_coef := 0 } 801).2 = Plot3D.IterStatus.running
      ∧ (Plot3D.iterations
        { time_step := 0.01, num_steps := 800, g := 0, center_radius := 0.2,
          center_weight := 5, surface_tension := 1, surface_radius := 1,
          x0 := 0.3, y0 := 0, v_i := 0, cosTh := 1, sinTh := 0,
          friction_coef := 0 } 801).1.steps_run = 801) := by
  constructor
  · intro p
    have := runLoop_steps_le p.earth_gravity p.friction_coefficient p.time_step
      p.center_radius
      { depth := p.surface_depth, sigma := p.surface_sigma,
        friction := p.friction_coefficient }
      p.num_steps
      { x := p.initial_position_x, y := p.initial_position_y,
        vx := p.initial_velocity_x, vy := p.initial_velocity_y,
        xs := [], ys := [], zs := [], collided := false, steps_run := 0 }
    simpa [Simulation.run_simulation] using this
  · have hm : Plot3D.iterMass 0 5 = 1 := by simp [Plot3D.iterMass]
    have hclamp : Plot3D.clampInitial 0.3 0 1 = (0.3, 0, false) := by
      have h03 : Real.sqrt ((0.3 : ℝ) * 0.3 + 0 * 0) = 0.3 := sqrt_xx 0.3 (by norm_num)
      simp only [Plot3D.clampInitial, h03]
      rw [if_neg (by norm_num)]
    have hvx : Plot3D.SimulationParams.vx0
        { time_step := 0.01, num_steps := 800, g := 0, center_radius := 0.2,
          center_weight := 5, surface_tension := 1, surface_radius := 1,
          x0 := 0.3, y0 := 0, v_i := 0, cosTh := 1, sinTh := 0,
          friction_coef := 0 } = 0 := by
      simp [Plot3D.SimulationParams.vx0]
    have hvy : Plot3D.SimulationParams.vy0
        { time_step := 0.01, num_steps := 800, g := 0, center_radius := 0.2,
          center_weight := 5, surface_tension := 1, surface_radius := 1,
          x0 := 0.3, y0 := 0, v_i := 0, cosTh := 1, sinTh := 0,
          friction_coef := 0 } = 0 := by
      simp [Plot3D.SimulationParams.vy0]
    have := iterLoop_stuck 801
      { x := 0.3, y := 0, vx := 0, vy := 0, xs := [], ys := [], zs := [],
        steps_run := 0 } rfl rfl rfl rfl
    constructor
    · show (Plot3D.iterations _ 801).2 = Plot3D.IterStatus.running
      rw [Plot3D.iterations]
      simp only [hm, hclamp]
      rw [hvx, hvy]
      exact this.1
    · show (Plot3D.iterations _ 801).1.steps_run = 801
      rw [Plot3D.iterations]
      simp only [hm, hclamp]
      rw [hvx, hvy]
      exact this.2

/-! ### C2: derived initial velocity convention -/

/-- C2 counterexample: at start position `(1, 0)` with `v_i = 1` and
`θ = 90°` (`cos θ = 0`, `sin θ = 1`), the code computes `vy0 = 1`, while
the claimed convention (`t̂` the counterclockwise rotation of the inward
radial vector `r̂`) would give `vy0 = -1`: the code's tangent is the
clockwise rotation of `r̂`, not the counterclockwise one. -/
theorem v0_ccw_tangent_counterexample :
    Plot3D.SimulationParams.vy0
      { time_step := 0.01, num_steps := 800, g := 9.81, center_radius := 0.05,
        center_weight := 4.905, surface_tension := 10, surface_radius := 0.5,
        x0 := 1, y0 := 0, v_i := 1, cosTh := 0, sinTh := 1,
        friction_coef := 0.3 } = 1
    ∧ (specV0CCW 1 0 1 0 1).2 = -1
    ∧ Plot3D.SimulationParams.vy0
      { time_step := 0.01, num_steps := 800, g := 9.81, center_radius := 0.05,
        center_weight := 4.905, surface_tension := 10, surface_radius := 0.5,
        x0 := 1, y0 := 0, v_i := 1, cosTh := 0, sinTh := 1,
        friction_coef := 0.3 } ≠ (specV0CCW 1 0 1 0 1).2 := by
  have h1 : Real.sqrt ((1 : ℝ) * 1 + 0 * 0) = 1 := sqrt_xx 1 (by norm_num)
  refine ⟨?_, ?_, ?_⟩
  · simp only [Plot3D.SimulationParams.vy0, h1]
    rw [if_pos (by norm_num)]
    norm_num
  · simp only [specV0CCW, specThatCCW, specRhat, rotCCW, h1]
    rw [if_pos (by norm_num), if_pos (by norm_num)]
    norm_num
  · simp only [Plot3D.SimulationParams.vy0, specV0CCW, specThatCCW, specRhat,
      rotCCW, h1]
    rw [if_pos (by norm_num), if_pos (by norm_num), if_pos (by norm_num)]
    norm_num

/-- C2 amended: the derived initial velocity is
`v = v_i·(cos θ · r̂ + sin θ · t̂)` where `r̂` points from the start
position toward the origin (with the degenerate fallback `r̂ = (-1, 0)`
when `r ≤ 1e-12`) and `t̂` is the 90°-CLOCKWISE rotation of `r̂`
(equivalently, the counterclockwise rotation of the outward radial unit
vector); the fallback tangent `(0, 1)` is exactly `rotCW (-1, 0)`. -/
theorem v0_matches_clockwise_tangent (p : Plot3D.SimulationParams) :
    (p.vx0, p.vy0) = specV0CW p.x0 p.y0 p.v_i p.cosTh p.sinTh := by
  by_cases h : Real.sqrt (p.x0 * p.x0 + p.y0 * p.y0) > 1e-12
  · simp only [Plot3D.SimulationParams.vx0, Plot3D.SimulationParams.vy0,
      specV0CW, specThatCW, specRhat, rotCW, if_pos h]
    simp only [Prod.mk.injEq]
    constructor <;> ring_nf
  · simp only [Plot3D.SimulationParams.vx0, Plot3D.SimulationParams.vy0,
      specV0CW, specThatCW, specRhat, rotCW, if_neg h]
    simp only [Prod.mk.injEq]
    constructor <;> ring_nf

/-! ### C5: explicit-Euler step composition -/

/-- C5 counterexample: at the origin (where the membrane gradient is the
zero vector) with current velocity `(1, 0)`, `g = 1`, `dt = 1`,
`friction_coef = 1` and mass `m = F/g = 2`, one step of `iterations`
yields `vx = 1/2`, while the claimed formula with the drag `-c·v` applied
directly with the configured coefficient `c = 1` yields `vx = 0`: the
membrane variant scales the coefficient by `1/m`. -/
theorem iter_drag_coefficient_counterexample :
    (Plot3D.iterStep 1 1 0.5 10 2 0.05 1 (Plot3D.iterMass 1 2)
      { x := 0, y := 0, vx := 1, vy := 0, xs := [], ys := [], zs := [],
        steps_run := 0 }).vx = 1 / 2
    ∧ (specEulerStep (Plot3D.gradient_xy 0 0 0.5 10 2 0.05).2.1
        (Plot3D.gradient_xy 0 0 0.5 10 2 0.05).2.2 1 1 1 0 0 1 0).2.2.1 = 0
    ∧ (Plot3D.iterStep 1 1 0.5 10 2 0.05 1 (Plot3D.iterMass 1 2)
      { x := 0, y := 0, vx := 1, vy := 0, xs := [], ys := [], zs := [],
        steps_run := 0 }).vx
      ≠ (specEulerStep (Plot3D.gradient_xy 0 0 0.5 10 2 0.05).2.1
        (Plot3D.gradient_xy 0 0 0.5 10 2 0.05).2.2 1 1 1 0 0 1 0).2.2.1 := by
  have hm : Plot3D.iterMass 1 2 = 2 := by
    rw [Plot3D.iterMass, if_pos (by norm_num)]
    norm_num
  have hg : Plot3D.gradient_xy 0 0 0.5 10 2 0.05 =
      (Plot3D.deformation (Real.sqrt (0 * 0 + 0 * 0)) 0.5 10 2 0.05, 0, 0) := by
    simp only [Plot3D.gradient_xy]
    rw [if_neg (by rw [show (0:ℝ) * 0 + 0 * 0 = 0 by ring, Real.sqrt_zero]; norm_num)]
  refine ⟨?_, ?_, ?_⟩
  · simp only [Plot3D.iterStep, hm, hg]
    norm_num
  · simp only [specEulerStep, hg]
    norm_num
  · simp only [Plot3D.iterStep, specEulerStep, hm, hg]
    norm_num

/-- C5 amended: both Euler steps update velocity first and position with
the new velocity, from acceleration `a = -g·∇h - c_eff·v`; the effective
drag coefficient `c_eff` is the configured `c` itself for the
Gaussian-well runner `run_simulation`, but `friction_coef / m` (with
`m = F/g`, or `1` when `g = 0`) for the membrane runner `iterations`. -/
theorem euler_steps_follow_spec_formula :
    (∀ (g c dt : ℝ) (f : SurfaceField) (s : Simulation.RunState),
      ((Simulation.runStep g c dt f s).x, (Simulation.runStep g c dt f s).y,
       (Simulation.runStep g c dt f s).vx, (Simulation.runStep g c dt f s).vy)
        = specEulerStep (f.gradient s.x s.y).1 (f.gradient s.x s.y).2
            g c dt s.x s.y s.vx s.vy)
    ∧ (∀ (g dt R T F cr fric m : ℝ) (s : Plot3D.IterState),
      ((Plot3D.iterStep g dt R T F cr fric m s).x,
       (Plot3D.iterStep g dt R T F cr fric m s).y,
       (Plot3D.iterStep g dt R T F cr fric m s).vx,
       (Plot3D.iterStep g dt R T F cr fric m s).vy)
        = specEulerStep (Plot3D.gradient_xy s.x s.y R T F cr).2.1
            (Plot3D.gradient_xy s.x s.y R T F cr).2.2
            g (fric / m) dt s.x s.y s.vx s.vy) := by
  constructor
  · intro g c dt f s
    simp only [Simulation.runStep, specEulerStep]
  · intro g dt R T F cr fric m s
    simp only [Plot3D.iterStep, specEulerStep]

/-! ### C6: velocity-Verlet scheme of the orbital variant -/

lemma accel_eq_specAccel (mu gamma : ℝ) (rv vv : ℝ × ℝ)
    (h : norm2 rv ≥ 1e-12) :
    SimNewton.accel mu gamma rv vv = specAccel mu gamma rv vv := by
  simp only [SimNewton.accel, specAccel, max_eq_left h]

/-- C6: away from the `max(r, 1e-12)` clamp (radii at least `1e-12`, for
both the current and the predicted position), one iteration of the orbital
loop is exactly the specified velocity-Verlet step
`r_next = r + v·dt + 0.5·a·dt²`, `v_half = v + 0.5·a·dt`,
`a_next = a(r_next, v_half)`, `v_next = v_half + 0.5·a_next·dt`, with
`a(r, v) = -(G·M/r²)·r̂ - γ·v`; the pre-loop initialisation sets
`a = a(r, v)` of the same acceleration function. -/
theorem verlet_step_matches_spec (mu gamma dt : ℝ) (s : SimNewton.VerletState)
    (h1 : norm2 s.r ≥ 1e-12)
    (h2 : norm2 (s.r.1 + s.v.1 * dt + 0.5 * s.a.1 * dt ^ 2,
                 s.r.2 + s.v.2 * dt + 0.5 * s.a.2 * dt ^ 2) ≥ 1e-12) :
    SimNewton.verletStep mu gamma dt s = specVerletStep mu gamma dt s ∧
    SimNewton.verletInit mu gamma s.r s.v =
      { r := s.r, v := s.v, a := specAccel mu gamma s.r s.v } := by
  constructor
  · simp only [SimNewton.verletStep, specVerletStep]
    rw [accel_eq_specAccel mu gamma _ _ h2]
  · simp only [SimNewton.verletInit]
    rw [accel_eq_specAccel mu gamma _ _ h1]

/-- Witness for C6 at `mu = 1`, `γ = 1`, `dt = 1`, `r = (1, 0)`,
`v = (0, 0)`, `a = (0, 0)`: both radii equal `1`, and the step agrees
with the specified scheme. -/
theorem verlet_step_matches_spec_witness :
    norm2 ((1 : ℝ), (0 : ℝ)) ≥ 1e-12 ∧
    SimNewton.verletStep 1 1 1 ⟨(1, 0), (0, 0), (0, 0)⟩ =
      specVerletStep 1 1 1 ⟨(1, 0), (0, 0), (0, 0)⟩ := by
  have hn : norm2 ((1 : ℝ), (0 : ℝ)) = 1 := by
    rw [norm2]
    exact sqrt_xx 1 (by norm_num)
  have h1 : norm2 ((1 : ℝ), (0 : ℝ)) ≥ 1e-12 := by rw [hn]; norm_num
  have h2 : norm2 (((1 : ℝ) + 0 * 1 + 0.5 * 0 * 1 ^ 2,
      (0 : ℝ) + 0 * 1 + 0.5 * 0 * 1 ^ 2) : ℝ × ℝ) ≥ 1e-12 := by
    rw [show (((1 : ℝ) + 0 * 1 + 0.5 * 0 * 1 ^ 2,
      (0 : ℝ) + 0 * 1 + 0.5 * 0 * 1 ^ 2) : ℝ × ℝ) = ((1 : ℝ), (0 : ℝ)) by norm_num]
    exact h1
  exact ⟨h1, (verlet_step_matches_spec 1 1 1 ⟨(1, 0), (0, 0), (0, 0)⟩ h1 h2).1⟩

/-! ### C7: epsilon guards on divisions -/

/-- C7: the claim fails for the tension: `deformation` (and `gradient_xy`)
divide by `2·π·T` with no epsilon guard, so at `T = 0` the divisor is
exactly `0` (in Python, a `ZeroDivisionError`), and the evaluation of
`deformation` at the failing input `r = 0.1, R = 0.5, T = 0, F = 1,
center_radius = 0.05` is literally a division by `deformationDenom 0 = 0`.
By contrast the Gaussian `SurfaceField.h` divides by a denominator that is
always strictly positive (the `sigma > 0` guard with `1e-12` fallback). -/
theorem tension_division_unguarded :
    Plot3D.deformationDenom 0 = 0 ∧
    Plot3D.deformation 0.1 0.5 0 1 0.05 =
      -1 / Plot3D.deformationDenom 0 * Real.log (0.5 / 0.1) ∧
    (∀ f : SurfaceField, ∃ d : ℝ, 0 < d ∧
      ∀ x y : ℝ, f.h x y = -f.depth * Real.exp (-(x * x + y * y) / d)) := by
  refine ⟨?_, ?_, ?_⟩
  · simp [Plot3D.deformationDenom]
  · rw [Plot3D.deformation]
    rw [show max (0.1 : ℝ) 0.05 = 0.1 by norm_num]
  · intro f
    refine ⟨if f.sigma > 0 then 2 * f.sigma ^ 2 else 1e-12, ?_, ?_⟩
    · by_cases h : f.sigma > 0
      · rw [if_pos h]; positivity
      · rw [if_neg h]; norm_num
    · intro x y
      simp only [SurfaceField.h]

/-! ### C9: Gaussian height evaluators -/

/-- C9 counterexample: `Drap.h` is a static method reading the module
constants of `constantes.py` (`depth = 0.2`, `sigma = 0.6`), so at the
origin it returns `-0.2` for EVERY instance — also for a `Drap`
constructed with `k_depth = k_sigma = sun_mass = sun_radius = 1`, whose
instance parameters (`D = 1`, `S = 1`) would give `-1`. -/
theorem drap_h_ignores_instance_counterexample :
    Drap.h 0 0 = -0.2 ∧
    specDrapH (Drap.init 1 1 1 1 0) 0 0 = -1 ∧
    Drap.h 0 0 ≠ specDrapH (Drap.init 1 1 1 1 0) 0 0 := by
  have h1 : Drap.h 0 0 = -0.2 := by
    rw [Drap.h]
    norm_num [Constantes.depth, Constantes.k_depth, Constantes.M_sun,
      Real.exp_zero]
  have h2 : specDrapH (Drap.init 1 1 1 1 0) 0 0 = -1 := by
    rw [specDrapH, Drap.init]
    norm_num [Real.exp_zero]
  refine ⟨h1, h2, ?_⟩
  rw [h1, h2]
  norm_num

/-- C9 amended: `SurfaceField.h` does compute the Gaussian-well formula
from its instance parameters (whenever `sigma > 0`, which the guard
otherwise replaces by `1e-12`); `Drap.h` instead always computes it from
the module-level constants `depth = k_depth·M_sun = 0.2` and
`sigma = k_sigma·sun_radius = 0.6` of `constantes.py`, ignoring the
parameters the instance was constructed with. -/
theorem gaussian_height_evaluators (f : SurfaceField) (hσ : 0 < f.sigma) :
    (∀ x y : ℝ, f.h x y =
      -f.depth * Real.exp (-(x * x + y * y) / (2 * f.sigma ^ 2))) ∧
    (∀ x y : ℝ, Drap.h x y =
      -(0.2 : ℝ) * Real.exp (-(x ^ 2 + y ^ 2) / (2 * (0.6 : ℝ) ^ 2))) := by
  constructor
  · intro x y
    simp only [SurfaceField.h, if_pos hσ]
  · intro x y
    rw [Drap.h]
    norm_num [Constantes.depth, Constantes.k_depth, Constantes.M_sun,
      Constantes.sigma, Constantes.k_sigma, Constantes.sun_radius]

/-- Witness for C9 (amended) at the `SurfaceField` instance
`depth = 0.1, sigma = 0.05` and the origin. -/
theorem gaussian_height_evaluators_witness :
    (0 : ℝ) < 0.05 ∧
    SurfaceField.h ⟨0.1, 0.05, 0.3⟩ 0 0 =
      -(0.1 : ℝ) * Real.exp (-((0 : ℝ) * 0 + 0 * 0) / (2 * (0.05 : ℝ) ^ 2)) :=
  ⟨by norm_num,
   (gaussian_height_evaluators ⟨0.1, 0.05, 0.3⟩ (by norm_num)).1 0 0⟩

/-! ### C8: out-of-bounds initial position is clamped, not rejected -/

/-- C8: when the initial position lies at or beyond the boundary
(`r0 ≥ R`), `iterations` warns (boolean flag) and clamps: for `r0 >
1e-12` the position is rescaled by the nonnegative factor `(R - 1e-6)/r0`
— same angle, new radius exactly `R - 1e-6` (for any boundary `R ≥
1e-6`) — and in the degenerate origin case it is placed at
`(R - 1e-6, 0)`; the run then proceeds from the clamped position. -/
theorem initial_position_clamped (x y R : ℝ)
    (hout : Real.sqrt (x * x + y * y) ≥ R) :
    (Plot3D.clampInitial x y R).2.2 = true ∧
    (Real.sqrt (x * x + y * y) > 1e-12 → (1e-6 : ℝ) ≤ R →
      (∃ s : ℝ, 0 ≤ s ∧ (Plot3D.clampInitial x y R).1 = x * s ∧
        (Plot3D.clampInitial x y R).2.1 = y * s) ∧
      Real.sqrt ((Plot3D.clampInitial x y R).1 * (Plot3D.clampInitial x y R).1 +
        (Plot3D.clampInitial x y R).2.1 * (Plot3D.clampInitial x y R).2.1)
        = R - 1e-6) ∧
    (Real.sqrt (x * x + y * y) ≤ 1e-12 →
      (Plot3D.clampInitial x y R).1 = R - 1e-6 ∧
      (Plot3D.clampInitial x y R).2.1 = 0) := by
  by_cases hr : Real.sqrt (x * x + y * y) > 1e-12
  · have hcl : Plot3D.clampInitial x y R =
        (x * ((R - 1e-6) / Real.sqrt (x * x + y * y)),
         y * ((R - 1e-6) / Real.sqrt (x * x + y * y)), true) := by
      simp only [Plot3D.clampInitial]
      rw [if_pos hout, if_pos hr]
    have hr0pos : 0 < Real.sqrt (x * x + y * y) :=
      lt_trans (by norm_num : (0 : ℝ) < 1e-12) hr
    refine ⟨by rw [hcl], ?_, ?_⟩
    · intro _ hR
      have hs : 0 ≤ (R - 1e-6) / Real.sqrt (x * x + y * y) :=
        div_nonneg (by linarith) (le_of_lt hr0pos)
      refine ⟨⟨(R - 1e-6) / Real.sqrt (x * x + y * y), hs, by rw [hcl], by rw [hcl]⟩, ?_⟩
      rw [hcl]
      have key : x * ((R - 1e-6) / Real.sqrt (x * x + y * y)) *
            (x * ((R - 1e-6) / Real.sqrt (x * x + y * y))) +
          y * ((R - 1e-6) / Real.sqrt (x * x + y * y)) *
            (y * ((R - 1e-6) / Real.sqrt (x * x + y * y))) =
          ((R - 1e-6) / Real.sqrt (x * x + y * y)) ^ 2 * (x * x + y * y) := by
        ring
      rw [key, Real.sqrt_mul (sq_nonneg _), Real.sqrt_sq hs]
      exact div_mul_cancel₀ _ (ne_of_gt hr0pos)
    · intro hle
      exact absurd hle (not_le.mpr hr)
  · have hcl : Plot3D.clampInitial x y R = (min (R - 1e-6) R, 0, true) := by
      simp only [Plot3D.clampInitial]
      rw [if_pos hout, if_neg hr]
    refine ⟨by rw [hcl], ?_, ?_⟩
    · intro hgt _
      exact absurd hgt hr
    · intro _
      rw [hcl]
      exact ⟨min_eq_left (by norm_num), rfl⟩

/-- Witness for C8 at `(x, y) = (1, 0)`, `R = 0.5`: the flag is set and
the clamped radius is exactly `0.5 - 1e-6`. -/
theorem initial_position_clamped_witness :
    Real.sqrt ((1 : ℝ) * 1 + 0 * 0) ≥ 0.5 ∧
    (Plot3D.clampInitial 1 0 0.5).2.2 = true ∧
    Real.sqrt ((Plot3D.clampInitial 1 0 0.5).1 * (Plot3D.clampInitial 1 0 0.5).1 +
      (Plot3D.clampInitial 1 0 0.5).2.1 * (Plot3D.clampInitial 1 0 0.5).2.1)
      = 0.5 - 1e-6 := by
  have h1 : Real.sqrt ((1 : ℝ) * 1 + 0 * 0) = 1 := sqrt_xx 1 (by norm_num)
  have hout : Real.sqrt ((1 : ℝ) * 1 + 0 * 0) ≥ 0.5 := by rw [h1]; norm_num
  refine ⟨hout, (initial_position_clamped 1 0 0.5 hout).1, ?_⟩
  exact ((initial_position_clamped 1 0 0.5 hout).2.1
    (by rw [h1]; norm_num) (by norm_num)).2

/-! ### List helpers for the recorded-history lemmas -/

lemma getLast?_append_singleton (l : List ℝ) (a : ℝ) :
    (l ++ [a]).getLast? = some a := by
  simp

lemma getD_append_length (l : List ℝ) (a d : ℝ) :
    (l ++ [a]).getD l.length d = a := by
  simp [List.getD_append_right]

lemma getD_append_left (l l' : List ℝ) (i : ℕ) (h : i < l.length) (d : ℝ) :
    (l ++ l').getD i d = l.getD i d := by
  simp [List.getD, List.getElem?_append_left h]

lemma getD_of_getLast? (l : List ℝ) (a : ℝ) (h : l.getLast? = some a) :
    l.getD (l.length - 1) 0 = a := by
  have hne : l ≠ [] := by
    intro he
    rw [he] at h
    exact absurd h (by simp)
  rw [List.getLast?_eq_getLast _ hne] at h
  have hlt : l.length - 1 < l.length := by
    have hl : 0 < l.length := List.length_pos.mpr hne
    omega
  rw [List.getD, List.get?_eq_get hlt, Option.getD_some]
  rw [List.getLast_eq_getElem l hne] at h
  exact Option.some.inj h

lemma radiusAt_append (xs ys : List ℝ) (x' y' : ℝ)
    (hlen : ys.length = xs.length) :
    radiusAt (xs ++ [x']) (ys ++ [y']) xs.length =
      Real.sqrt (x' * x' + y' * y') := by
  have h1 : (xs ++ [x']).getD xs.length 0 = x' := getD_append_length xs x' 0
  have h2 : (ys ++ [y']).getD xs.length 0 = y' := by
    rw [← hlen]
    exact getD_append_length ys y' 0
  rw [radiusAt, h1, h2]

lemma radiusAt_append_lt (xs ys : List ℝ) (x' y' : ℝ) (i : ℕ)
    (h : i < xs.length) (hlen : ys.length = xs.length) :
    radiusAt (xs ++ [x']) (ys ++ [y']) i = radiusAt xs ys i := by
  have h1 : (xs ++ [x']).getD i 0 = xs.getD i 0 := getD_append_left xs [x'] i h 0
  have h2 : (ys ++ [y']).getD i 0 = ys.getD i 0 :=
    getD_append_left ys [y'] i (hlen ▸ h) 0
  rw [radiusAt, radiusAt, h1, h2]

lemma radiusAt_last (xs ys : List ℝ) (x y : ℝ)
    (hx : xs.getLast? = some x) (hy : ys.getLast? = some y)
    (hlen : ys.length = xs.length) :
    radiusAt xs ys (xs.length - 1) = Real.sqrt (x * x + y * y) := by
  have h1 : xs.getD (xs.length - 1) 0 = x := getD_of_getLast? xs x hx
  have h2 : ys.getD (xs.length - 1) 0 = y := by
    rw [← hlen]
    exact getD_of_getLast? ys y hy
  rw [radiusAt, h1, h2]

/-! ### C3: the terminal position is (or is not) the last history entry -/

lemma iterStep_xs (g dt R T F cr fric m : ℝ) (s : Plot3D.IterState) :
    (Plot3D.iterStep g dt R T F cr fric m s).xs =
      s.xs ++ [(Plot3D.iterStep g dt R T F cr fric m s).x] := rfl

lemma iterStep_ys (g dt R T F cr fric m : ℝ) (s : Plot3D.IterState) :
    (Plot3D.iterStep g dt R T F cr fric m s).ys =
      s.ys ++ [(Plot3D.iterStep g dt R T F cr fric m s).y] := rfl

lemma iterStep_zs (g dt R T F cr fric m : ℝ) (s : Plot3D.IterState) :
    (Plot3D.iterStep g dt R T F cr fric m s).zs =
      s.zs ++ [(Plot3D.gradient_xy s.x s.y R T F cr).1] := rfl

lemma runStep_xs (g c dt : ℝ) (f : SurfaceField) (s : Simulation.RunState) :
    (Simulation.runStep g c dt f s).xs =
      s.xs ++ [(Simulation.runStep g c dt f s).x] := rfl

lemma runStep_ys (g c dt : ℝ) (f : SurfaceField) (s : Simulation.RunState) :
    (Simulation.runStep g c dt f s).ys =
      s.ys ++ [(Simulation.runStep g c dt f s).y] := rfl

/-- In the membrane loop, whichever stop condition fires, the state that
fired it was appended to the history in the same iteration: the last
recorded entry is the final position and it satisfies the respective
radius condition. -/
lemma iterLoop_terminal_last (g dt R T F cr fric m : ℝ) :
    ∀ (fuel : ℕ) (s : Plot3D.IterState),
      (((Plot3D.iterLoop g dt R T F cr fric m fuel s).2 =
          Plot3D.IterStatus.escaped →
        (Plot3D.iterLoop g dt R T F cr fric m fuel s).1.xs.getLast? =
          some (Plot3D.iterLoop g dt R T F cr fric m fuel s).1.x ∧
        (Plot3D.iterLoop g dt R T F cr fric m fuel s).1.ys.getLast? =
          some (Plot3D.iterLoop g dt R T F cr fric m fuel s).1.y ∧
        Real.sqrt ((Plot3D.iterLoop g dt R T F cr fric m fuel s).1.x *
            (Plot3D.iterLoop g dt R T F cr fric m fuel s).1.x +
          (Plot3D.iterLoop g dt R T F cr fric m fuel s).1.y *
            (Plot3D.iterLoop g dt R T F cr fric m fuel s).1.y) ≥ R)
      ∧ ((Plot3D.iterLoop g dt R T F cr fric m fuel s).2 =
          Plot3D.IterStatus.collided →
        (Plot3D.iterLoop g dt R T F cr fric m fuel s).1.xs.getLast? =
          some (Plot3D.iterLoop g dt R T F cr fric m fuel s).1.x ∧
        (Plot3D.iterLoop g dt R T F cr fric m fuel s).1.ys.getLast? =
          some (Plot3D.iterLoop g dt R T F cr fric m fuel s).1.y ∧
        Real.sqrt ((Plot3D.iterLoop g dt R T F cr fric m fuel s).1.x *
            (Plot3D.iterLoop g dt R T F cr fric m fuel s).1.x +
          (Plot3D.iterLoop g dt R T F cr fric m fuel s).1.y *
            (Plot3D.iterLoop g dt R T F cr fric m fuel s).1.y) ≤ cr)) := by
  intro fuel
  induction fuel with
  | zero =>
    intro s
    constructor
    · intro h
      exact absurd h (by simp [Plot3D.iterLoop])
    · intro h
      exact absurd h (by simp [Plot3D.iterLoop])
  | succ n ih =>
    intro s
    rw [iterLoop_succ]
    simp only []
    by_cases h1 : Real.sqrt ((Plot3D.iterStep g dt R T F cr fric m s).x *
        (Plot3D.iterStep g dt R T F cr fric m s).x +
        (Plot3D.iterStep g dt R T F cr fric m s).y *
        (Plot3D.iterStep g dt R T F cr fric m s).y) ≥ R
    · rw [if_pos h1]
      constructor
      · intro _
        refine ⟨?_, ?_, h1⟩
        · rw [iterStep_xs]
          exact getLast?_append_singleton _ _
        · rw [iterStep_ys]
          exact getLast?_append_singleton _ _
      · intro hc
        exact absurd hc (by simp)
    · rw [if_neg h1]
      by_cases h2 : Real.sqrt ((Plot3D.iterStep g dt R T F cr fric m s).x *
          (Plot3D.iterStep g dt R T F cr fric m s).x +
          (Plot3D.iterStep g dt R T F cr fric m s).y *
          (Plot3D.iterStep g dt R T F cr fric m s).y) ≤ cr
      · rw [if_pos h2]
        constructor
        · intro he
          exact absurd he (by simp)
        · intro _
          refine ⟨?_, ?_, h2⟩
          · rw [iterStep_xs]
            exact getLast?_append_singleton _ _
          · rw [iterStep_ys]
            exact getLast?_append_singleton _ _
      · rw [if_neg h2]
        exact ih (Plot3D.iterStep g dt R T F cr fric m s)

/-- In the Gaussian-well loop, the collision test runs at the TOP of each
iteration, against the position recorded at the end of the previous one;
so when it fires after at least one executed step, the offending position
is the last recorded entry (but its radius satisfies the strict
`r < R_center`). -/
lemma runLoop_collided_last (g c dt Rc : ℝ) (f : SurfaceField) :
    ∀ (fuel : ℕ) (s : Simulation.RunState),
      s.collided = false →
      (s.xs ≠ [] → s.xs.getLast? = some s.x ∧ s.ys.getLast? = some s.y) →
      (Simulation.runLoop g c dt Rc f fuel s).collided = true →
      (Simulation.runLoop g c dt Rc f fuel s).xs ≠ [] →
      (Simulation.runLoop g c dt Rc f fuel s).xs.getLast? =
        some (Simulation.runLoop g c dt Rc f fuel s).x ∧
      (Simulation.runLoop g c dt Rc f fuel s).ys.getLast? =
        some (Simulation.runLoop g c dt Rc f fuel s).y ∧
      Real.sqrt ((Simulation.runLoop g c dt Rc f fuel s).x *
          (Simulation.runLoop g c dt Rc f fuel s).x +
        (Simulation.runLoop g c dt Rc f fuel s).y *
          (Simulation.runLoop g c dt Rc f fuel s).y) < Rc := by
  intro fuel
  induction fuel with
  | zero =>
    intro s hfalse hlast hcol
    rw [show Simulation.runLoop g c dt Rc f 0 s = s from rfl] at hcol
    rw [hfalse] at hcol
    exact absurd hcol (by simp)
  | succ n ih =>
    intro s hfalse hlast
    rw [runLoop_succ]
    by_cases h : Real.sqrt (s.x * s.x + s.y * s.y) < Rc
    · rw [if_pos h]
      intro _ hne
      simp only [] at hne ⊢
      exact ⟨(hlast hne).1, (hlast hne).2, h⟩
    · rw [if_neg h]
      apply ih (Simulation.runStep g c dt f s) rfl
      intro _
      constructor
      · rw [runStep_xs]
        exact getLast?_append_singleton _ _
      · rw [runStep_ys]
        exact getLast?_append_singleton _ _

/-- C3 counterexample: a `run_simulation` run whose initial position is
already inside the central body halts with `collided = true` and an EMPTY
history — the collided position is not recorded, because the collision
test runs before (not after) the state update of the step. -/
theorem run_sim_initial_collision_empty_history :
    (Simulation.run_simulation
      { earth_gravity := 9.81, friction_coefficient := 0.05, time_step := 0.01,
        num_steps := 4000, center_radius := 0.025, center_mass := 1,
        surface_depth := 0.1, surface_sigma := 0.05,
        initial_position_x := 0, initial_position_y := 0,
        initial_velocity_x := 0, initial_velocity_y := 1 }).collided = true
    ∧ (Simulation.run_simulation
      { earth_gravity := 9.81, friction_coefficient := 0.05, time_step := 0.01,
        num_steps := 4000, center_radius := 0.025, center_mass := 1,
        surface_depth := 0.1, surface_sigma := 0.05,
        initial_position_x := 0, initial_position_y := 0,
        initial_velocity_x := 0, initial_velocity_y := 1 }).xs = [] := by
  have h0 : Real.sqrt ((0 : ℝ) * 0 + 0 * 0) < 0.025 := by
    rw [sqrt_xx 0 le_rfl]
    norm_num
  have key : Simulation.run_simulation
      { earth_gravity := 9.81, friction_coefficient := 0.05, time_step := 0.01,
        num_steps := 4000, center_radius := 0.025, center_mass := 1,
        surface_depth := 0.1, surface_sigma := 0.05,
        initial_position_x := 0, initial_position_y := 0,
        initial_velocity_x := 0, initial_velocity_y := 1 } =
      { x := 0, y := 0, vx := 0, vy := 1, xs := [], ys := [], zs := [],
        collided := true, steps_run := 0 } := by
    rw [show Simulation.run_simulation
      { earth_gravity := 9.81, friction_coefficient := 0.05, time_step := 0.01,
        num_steps := 4000, center_radius := 0.025, center_mass := 1,
        surface_depth := 0.1, surface_sigma := 0.05,
        initial_position_x := 0, initial_position_y := 0,
        initial_velocity_x := 0, initial_velocity_y := 1 } =
        Simulation.runLoop 9.81 0.05 0.01 0.025
          { depth := 0.1, sigma := 0.05, friction := 0.05 } 4000
          { x := 0, y := 0, vx := 0, vy := 1, xs := [], ys := [], zs := [],
            collided := false, steps_run := 0 } from rfl]
    rw [show (4000 : ℕ) = 3999 + 1 from rfl, runLoop_succ, if_pos h0]
  rw [key]
  exact ⟨rfl, rfl⟩

/-- C3 amended: in the membrane runner `iterations` the stop conditions
are checked strictly after the state update, so an escaped or collided run
always has the terminal (out-of-bounds or collided) position as the last
history entry; in the Gaussian-well runner `run_simulation` the collision
test runs at the top of each iteration against the previously recorded
position, so a collided run has the collided position as the last history
entry whenever at least one step was recorded — but a run whose initial
position already collides halts with empty history. -/
theorem terminal_position_recorded_last :
    (∀ (p : Plot3D.SimulationParams) (fuel : ℕ),
      ((Plot3D.iterations p fuel).2 = Plot3D.IterStatus.escaped →
        (Plot3D.iterations p fuel).1.xs.getLast? =
          some (Plot3D.iterations p fuel).1.x ∧
        (Plot3D.iterations p fuel).1.ys.getLast? =
          some (Plot3D.iterations p fuel).1.y ∧
        Real.sqrt ((Plot3D.iterations p fuel).1.x * (Plot3D.iterations p fuel).1.x +
          (Plot3D.iterations p fuel).1.y * (Plot3D.iterations p fuel).1.y) ≥
            p.surface_radius)
      ∧ ((Plot3D.iterations p fuel).2 = Plot3D.IterStatus.collided →
        (Plot3D.iterations p fuel).1.xs.getLast? =
          some (Plot3D.iterations p fuel).1.x ∧
        (Plot3D.iterations p fuel).1.ys.getLast? =
          some (Plot3D.iterations p fuel).1.y ∧
        Real.sqrt ((Plot3D.iterations p fuel).1.x * (Plot3D.iterations p fuel).1.x +
          (Plot3D.iterations p fuel).1.y * (Plot3D.iterations p fuel).1.y) ≤
            p.center_radius))
    ∧ (∀ p : Simulation.SimulationParams,
      (Simulation.run_simulation p).collided = true →
      (Simulation.run_simulation p).xs ≠ [] →
      (Simulation.run_simulation p).xs.getLast? =
        some (Simulation.run_simulation p).x ∧
      (Simulation.run_simulation p).ys.getLast? =
        some (Simulation.run_simulation p).y ∧
      Real.sqrt ((Simulation.run_simulation p).x * (Simulation.run_simulation p).x +
        (Simulation.run_simulation p).y * (Simulation.run_simulation p).y) <
          p.center_radius) := by
  constructor
  · intro p fuel
    exact iterLoop_terminal_last p.g p.time_step p.surface_radius
      p.surface_tension p.center_weight p.center_radius p.friction_coef
      (Plot3D.iterMass p.g p.center_weight) fuel _
  · intro p
    apply runLoop_collided_last p.earth_gravity p.friction_coefficient
      p.time_step p.center_radius _ p.num_steps _ rfl
    intro h
    exact absurd rfl h

/-! ### Concrete demo runs (shared by the witnesses) -/

lemma iterations_demo :
    Plot3D.iterations demoParams 2 =
      ({ x := 0.2, y := 0, vx := -0.15, vy := 0,
         xs := [0.35, 0.2], ys := [0, 0],
         zs := [(Plot3D.gradient_xy 0.5 0 1 1 5 0.2).1,
                (Plot3D.gradient_xy 0.35 0 1 1 5 0.2).1],
         steps_run := 2 }, Plot3D.IterStatus.collided) := by
  have hm : Plot3D.iterMass 0 5 = 1 := by
    rw [Plot3D.iterMass, if_neg (by simp)]
  have hclamp : Plot3D.clampInitial 0.5 0 1 = (0.5, 0, false) := by
    have h05 : Real.sqrt ((0.5 : ℝ) * 0.5 + 0 * 0) = 0.5 :=
      sqrt_xx 0.5 (by norm_num)
    simp only [Plot3D.clampInitial, h05]
    rw [if_neg (by norm_num)]
  have h05 : Real.sqrt ((0.5 : ℝ) * 0.5 + 0 * 0) = 0.5 :=
    sqrt_xx 0.5 (by norm_num)
  have hvx : demoParams.vx0 = -0.15 := by
    simp only [Plot3D.SimulationParams.vx0, demoParams, h05]
    rw [if_pos (by norm_num)]
    norm_num
  have hvy : demoParams.vy0 = 0 := by
    simp only [Plot3D.SimulationParams.vy0, demoParams, h05]
    rw [if_pos (by norm_num)]
    norm_num
  have hstep1 : Plot3D.iterStep 0 1 1 1 5 0.2 0 1
      { x := 0.5, y := 0, vx := -0.15, vy := 0, xs := [], ys := [], zs := [],
        steps_run := 0 } =
      { x := 0.35, y := 0, vx := -0.15, vy := 0,
        xs := [0.35], ys := [0],
        zs := [(Plot3D.gradient_xy 0.5 0 1 1 5 0.2).1], steps_run := 1 } := by
    simp only [Plot3D.iterStep]
    norm_num
  have hstep2 : Plot3D.iterStep 0 1 1 1 5 0.2 0 1
      { x := 0.35, y := 0, vx := -0.15, vy := 0,
        xs := [0.35], ys := [0],
        zs := [(Plot3D.gradient_xy 0.5 0 1 1 5 0.2).1], steps_run := 1 } =
      { x := 0.2, y := 0, vx := -0.15, vy := 0,
        xs := [0.35, 0.2], ys := [0, 0],
        zs := [(Plot3D.gradient_xy 0.5 0 1 1 5 0.2).1,
               (Plot3D.gradient_xy 0.35 0 1 1 5 0.2).1],
        steps_run := 2 } := by
    simp only [Plot3D.iterStep]
    norm_num
  have h035 : Real.sqrt ((0.35 : ℝ) * 0.35 + 0 * 0) = 0.35 :=
    sqrt_xx 0.35 (by norm_num)
  have h02 : Real.sqrt ((0.2 : ℝ) * 0.2 + 0 * 0) = 0.2 :=
    sqrt_xx 0.2 (by norm_num)
  rw [show Plot3D.iterations demoParams 2 =
      Plot3D.iterLoop 0 1 1 1 5 0.2 0 (Plot3D.iterMass 0 5) 2
        { x := (Plot3D.clampInitial 0.5 0 1).1,
          y := (Plot3D.clampInitial 0.5 0 1).2.1,
          vx := demoParams.vx0, vy := demoParams.vy0,
          xs := [], ys := [], zs := [], steps_run := 0 } from rfl]
  rw [hm, hclamp, hvx, hvy]
  simp only []
  rw [show (2 : ℕ) = 1 + 1 from rfl, iterLoop_succ]
  simp only []
  rw [hstep1]
  simp only []
  rw [h035, if_neg (by norm_num), if_neg (by norm_num)]
  rw [show (1 : ℕ) = 0 + 1 from rfl, iterLoop_succ]
  simp only []
  rw [hstep2]
  simp only []
  rw [h02, if_neg (by norm_num), if_pos (by norm_num)]

lemma run_sim_demo :
    Simulation.run_simulation rsParams =
      { x := 0.1, y := 0, vx := -0.1, vy := 0, xs := [0.2, 0.1], ys := [0, 0],
        zs := [0, 0], collided := true, steps_run := 2 } := by
  have h03 : Real.sqrt ((0.3 : ℝ) * 0.3 + 0 * 0) = 0.3 :=
    sqrt_xx 0.3 (by norm_num)
  have h02 : Real.sqrt ((0.2 : ℝ) * 0.2 + 0 * 0) = 0.2 :=
    sqrt_xx 0.2 (by norm_num)
  have h01 : Real.sqrt ((0.1 : ℝ) * 0.1 + 0 * 0) = 0.1 :=
    sqrt_xx 0.1 (by norm_num)
  have hstep1 : Simulation.runStep 9.81 0 1
      { depth := 0, sigma := 0.05, friction := 0 }
      { x := 0.3, y := 0, vx := -0.1, vy := 0, xs := [], ys := [], zs := [],
        collided := false, steps_run := 0 } =
      { x := 0.2, y := 0, vx := -0.1, vy := 0, xs := [0.2], ys := [0],
        zs := [0], collided := false, steps_run := 1 } := by
    simp only [Simulation.runStep, Simulation.RunState.mk.injEq,
      SurfaceField.gradient, SurfaceField.h]
    norm_num
  have hstep2 : Simulation.runStep 9.81 0 1
      { depth := 0, sigma := 0.05, friction := 0 }
      { x := 0.2, y := 0, vx := -0.1, vy := 0, xs := [0.2], ys := [0],
        zs := [0], collided := false, steps_run := 1 } =
      { x := 0.1, y := 0, vx := -0.1, vy := 0, xs := [0.2, 0.1], ys := [0, 0],
        zs := [0, 0], collided := false, steps_run := 2 } := by
    simp only [Simulation.runStep, Simulation.RunState.mk.injEq,
      SurfaceField.gradient, SurfaceField.h]
    norm_num
  rw [show Simulation.run_simulation rsParams =
      Simulation.runLoop 9.81 0 1 0.2
        { depth := 0, sigma := 0.05, friction := 0 } 5
        { x := 0.3, y := 0, vx := -0.1, vy := 0, xs := [], ys := [], zs := [],
          collided := false, steps_run := 0 } from rfl]
  rw [show (5 : ℕ) = 4 + 1 from rfl, runLoop_succ]
  simp only []
  rw [h03, if_neg (by norm_num), hstep1]
  rw [show (4 : ℕ) = 3 + 1 from rfl, runLoop_succ]
  simp only []
  rw [h02, if_neg (by norm_num), hstep2]
  rw [show (3 : ℕ) = 2 + 1 from rfl, runLoop_succ]
  simp only []
  rw [h01, if_pos (by norm_num)]

/-- Witness for C3 (amended): a concrete collided membrane run and a
concrete collided Gaussian-well run, both with the collided position as
the last recorded entry. -/
theorem terminal_position_recorded_last_witness :
    (Plot3D.iterations demoParams 2).2 = Plot3D.IterStatus.collided ∧
    (Plot3D.iterations demoParams 2).1.xs.getLast? =
      some (Plot3D.iterations demoParams 2).1.x ∧
    (Simulation.run_simulation rsParams).collided = true ∧
    (Simulation.run_simulation rsParams).xs.getLast? =
      some (Simulation.run_simulation rsParams).x := by
  have hiter : (Plot3D.iterations demoParams 2).2 = Plot3D.IterStatus.collided := by
    rw [iterations_demo]
  have hcol : (Simulation.run_simulation rsParams).collided = true := by
    rw [run_sim_demo]
  have hne : (Simulation.run_simulation rsParams).xs ≠ [] := by
    rw [run_sim_demo]
    simp
  refine ⟨hiter, ?_, hcol, ?_⟩
  · exact ((terminal_position_recorded_last.1 demoParams 2).2 hiter).1
  · exact (terminal_position_recorded_last.2 rsParams hcol hne).1

/-! ### C4: recorded radii of collided runs -/

/-- In the membrane loop: if it ends `Collided`, the last recorded radius
is at most `center_radius` and all strictly earlier recorded radii are
strictly above it (they passed both stop tests). -/
lemma iterLoop_collided_radii (g dt R T F cr fric m : ℝ) :
    ∀ (fuel : ℕ) (s : Plot3D.IterState),
      s.ys.length = s.xs.length →
      (∀ i, i < s.xs.length → cr < radiusAt s.xs s.ys i) →
      (Plot3D.iterLoop g dt R T F cr fric m fuel s).2 =
        Plot3D.IterStatus.collided →
      (Plot3D.iterLoop g dt R T F cr fric m fuel s).1.xs ≠ [] ∧
      (Plot3D.iterLoop g dt R T F cr fric m fuel s).1.ys.length =
        (Plot3D.iterLoop g dt R T F cr fric m fuel s).1.xs.length ∧
      radiusAt (Plot3D.iterLoop g dt R T F cr fric m fuel s).1.xs
        (Plot3D.iterLoop g dt R T F cr fric m fuel s).1.ys
        ((Plot3D.iterLoop g dt R T F cr fric m fuel s).1.xs.length - 1) ≤ cr ∧
      (∀ i, i + 1 < (Plot3D.iterLoop g dt R T F cr fric m fuel s).1.xs.length →
        cr < radiusAt (Plot3D.iterLoop g dt R T F cr fric m fuel s).1.xs
          (Plot3D.iterLoop g dt R T F cr fric m fuel s).1.ys i) := by
  intro fuel
  induction fuel with
  | zero =>
    intro s _ _ hcol
    exact absurd hcol (by simp [Plot3D.iterLoop])
  | succ n ih =>
    intro s hlen hinv
    have hlen' : (Plot3D.iterStep g dt R T F cr fric m s).ys.length =
        (Plot3D.iterStep g dt R T F cr fric m s).xs.length := by
      rw [iterStep_xs, iterStep_ys]
      simp [hlen]
    have hxslen : (Plot3D.iterStep g dt R T F cr fric m s).xs.length =
        s.xs.length + 1 := by
      rw [iterStep_xs]
      simp
    have hlast_r : radiusAt (Plot3D.iterStep g dt R T F cr fric m s).xs
        (Plot3D.iterStep g dt R T F cr fric m s).ys
        ((Plot3D.iterStep g dt R T F cr fric m s).xs.length - 1) =
        Real.sqrt ((Plot3D.iterStep g dt R T F cr fric m s).x *
            (Plot3D.iterStep g dt R T F cr fric m s).x +
          (Plot3D.iterStep g dt R T F cr fric m s).y *
            (Plot3D.iterStep g dt R T F cr fric m s).y) := by
      rw [hxslen, iterStep_xs, iterStep_ys]
      rw [show s.xs.length + 1 - 1 = s.xs.length from rfl]
      exact radiusAt_append s.xs s.ys _ _ hlen
    have hpres : ∀ i, i < s.xs.length →
        radiusAt (Plot3D.iterStep g dt R T F cr fric m s).xs
          (Plot3D.iterStep g dt R T F cr fric m s).ys i = radiusAt s.xs s.ys i := by
      intro i hi
      rw [iterStep_xs, iterStep_ys]
      exact radiusAt_append_lt s.xs s.ys _ _ i hi hlen
    rw [iterLoop_succ]
    simp only []
    by_cases h1 : Real.sqrt ((Plot3D.iterStep g dt R T F cr fric m s).x *
        (Plot3D.iterStep g dt R T F cr fric m s).x +
        (Plot3D.iterStep g dt R T F cr fric m s).y *
        (Plot3D.iterStep g dt R T F cr fric m s).y) ≥ R
    · rw [if_pos h1]
      intro hcol
      exact absurd hcol (by simp)
    · rw [if_neg h1]
      by_cases h2 : Real.sqrt ((Plot3D.iterStep g dt R T F cr fric m s).x *
          (Plot3D.iterStep g dt R T F cr fric m s).x +
          (Plot3D.iterStep g dt R T F cr fric m s).y *
          (Plot3D.iterStep g dt R T F cr fric m s).y) ≤ cr
      · rw [if_pos h2]
        intro _
        refine ⟨?_, hlen', ?_, ?_⟩
        · rw [iterStep_xs]
          simp
        · rw [hlast_r]
          exact h2
        · intro i hi
          rw [hxslen] at hi
          rw [hpres i (by omega)]
          exact hinv i (by omega)
      · rw [if_neg h2]
        apply ih (Plot3D.iterStep g dt R T F cr fric m s) hlen'
        intro i hi
        rw [hxslen] at hi
        by_cases hlt : i < s.xs.length
        · rw [hpres i hlt]
          exact hinv i hlt
        · have hieq : i = s.xs.length := by omega
          subst hieq
          rw [iterStep_xs, iterStep_ys]
          rw [radiusAt_append s.xs s.ys _ _ hlen]
          exact not_le.mp h2

/-- In the Gaussian-well loop: a collided run with nonempty history has
its last recorded radius strictly below `R_center` and all earlier
recorded radii at least `R_center` (the top-of-loop test is strict). -/
lemma runLoop_collided_radii (g c dt Rc : ℝ) (f : SurfaceField) :
    ∀ (fuel : ℕ) (s : Simulation.RunState),
      s.collided = false →
      s.ys.length = s.xs.length →
      (s.xs ≠ [] → s.xs.getLast? = some s.x ∧ s.ys.getLast? = some s.y) →
      (∀ i, i + 1 < s.xs.length → Rc ≤ radiusAt s.xs s.ys i) →
      (Simulation.runLoop g c dt Rc f fuel s).collided = true →
      (Simulation.runLoop g c dt Rc f fuel s).xs ≠ [] →
      radiusAt (Simulation.runLoop g c dt Rc f fuel s).xs
        (Simulation.runLoop g c dt Rc f fuel s).ys
        ((Simulation.runLoop g c dt Rc f fuel s).xs.length - 1) < Rc ∧
      (∀ i, i + 1 < (Simulation.runLoop g c dt Rc f fuel s).xs.length →
        Rc ≤ radiusAt (Simulation.runLoop g c dt Rc f fuel s).xs
          (Simulation.runLoop g c dt Rc f fuel s).ys i) := by
  intro fuel
  induction fuel with
  | zero =>
    intro s hfalse _ _ _ hcol
    rw [show Simulation.runLoop g c dt Rc f 0 s = s from rfl, hfalse] at hcol
    exact absurd hcol (by simp)
  | succ n ih =>
    intro s hfalse hlen hlast hinv
    rw [runLoop_succ]
    by_cases h : Real.sqrt (s.x * s.x + s.y * s.y) < Rc
    · rw [if_pos h]
      intro _ hne
      simp only [] at hne ⊢
      constructor
      · rw [radiusAt_last s.xs s.ys s.x s.y (hlast hne).1 (hlast hne).2 hlen]
        exact h
      · exact hinv
    · rw [if_neg h]
      have hxslen : (Simulation.runStep g c dt f s).xs.length =
          s.xs.length + 1 := by
        rw [runStep_xs]
        simp
      apply ih (Simulation.runStep g c dt f s) rfl
      · rw [runStep_xs, runStep_ys]
        simp [hlen]
      · intro _
        constructor
        · rw [runStep_xs]
          exact getLast?_append_singleton _ _
        · rw [runStep_ys]
          exact getLast?_append_singleton _ _
      · intro i hi
        rw [hxslen] at hi
        rw [runStep_xs, runStep_ys,
          radiusAt_append_lt s.xs s.ys _ _ i (by omega) hlen]
        by_cases hlt : i + 1 < s.xs.length
        · exact hinv i hlt
        · have hne : s.xs ≠ [] := by
            intro he
            rw [he] at hi
            simp at hi
          have hieq : i = s.xs.length - 1 := by
            have hl : 0 < s.xs.length := List.length_pos.mpr hne
            omega
          rw [hieq,
            radiusAt_last s.xs s.ys s.x s.y (hlast hne).1 (hlast hne).2 hlen]
          exact not_lt.mp h

/-- C4 counterexample: a collided `run_simulation` run (flat surface, no
friction, straight-line motion with `dt = 1`) whose FIRST recorded radius
is exactly `r_center = 0.2`: the strict test `r < R_center` does not fire
there, so an earlier recorded radius equal to — not strictly greater
than — `r_center` is possible. -/
theorem run_sim_boundary_radius_counterexample :
    (Simulation.run_simulation rsParams).collided = true ∧
    (Simulation.run_simulation rsParams).xs.length = 2 ∧
    radiusAt (Simulation.run_simulation rsParams).xs
      (Simulation.run_simulation rsParams).ys 0 = rsParams.center_radius ∧
    ¬ (rsParams.center_radius < radiusAt (Simulation.run_simulation rsParams).xs
      (Simulation.run_simulation rsParams).ys 0) := by
  have hrad : radiusAt [(0.2 : ℝ), 0.1] [(0 : ℝ), 0] 0 = 0.2 := by
    rw [radiusAt]
    simp only [List.getD, List.get?]
    rw [show (some (0.2 : ℝ)).getD 0 = 0.2 from rfl,
      show (some (0 : ℝ)).getD 0 = 0 from rfl]
    exact sqrt_xx 0.2 (by norm_num)
  rw [run_sim_demo]
  refine ⟨rfl, rfl, ?_, ?_⟩
  · rw [hrad, show rsParams.center_radius = 0.2 from rfl]
  · rw [hrad, show rsParams.center_radius = 0.2 from rfl]
    norm_num

/-- C4 amended: for the membrane runner `iterations` the claim holds as
stated (last recorded radius ≤ r_center, every earlier one strictly
greater); for `run_simulation`, a collided run with at least one recorded
entry has last recorded radius strictly below `r_center` and every
earlier recorded radius at least `r_center` — not necessarily strictly
greater, because the collision test is the strict `r < R_center` (and a
run whose initial position already collides records nothing at all). -/
theorem collided_run_recorded_radii :
    (∀ (p : Plot3D.SimulationParams) (fuel : ℕ),
      (Plot3D.iterations p fuel).2 = Plot3D.IterStatus.collided →
      (Plot3D.iterations p fuel).1.xs ≠ [] ∧
      radiusAt (Plot3D.iterations p fuel).1.xs (Plot3D.iterations p fuel).1.ys
        ((Plot3D.iterations p fuel).1.xs.length - 1) ≤ p.center_radius ∧
      (∀ i, i + 1 < (Plot3D.iterations p fuel).1.xs.length →
        p.center_radius < radiusAt (Plot3D.iterations p fuel).1.xs
          (Plot3D.iterations p fuel).1.ys i))
    ∧ (∀ p : Simulation.SimulationParams,
      (Simulation.run_simulation p).collided = true →
      (Simulation.run_simulation p).xs ≠ [] →
      radiusAt (Simulation.run_simulation p).xs (Simulation.run_simulation p).ys
        ((Simulation.run_simulation p).xs.length - 1) < p.center_radius ∧
      (∀ i, i + 1 < (Simulation.run_simulation p).xs.length →
        p.center_radius ≤ radiusAt (Simulation.run_simulation p).xs
          (Simulation.run_simulation p).ys i)) := by
  constructor
  · intro p fuel hcol
    have h := iterLoop_collided_radii p.g p.time_step p.surface_radius
      p.surface_tension p.center_weight p.center_radius p.friction_coef
      (Plot3D.iterMass p.g p.center_weight) fuel
      { x := (Plot3D.clampInitial p.x0 p.y0 p.surface_radius).1,
        y := (Plot3D.clampInitial p.x0 p.y0 p.surface_radius).2.1,
        vx := p.vx0, vy := p.vy0, xs := [], ys := [], zs := [], steps_run := 0 }
      rfl (by intro i hi; exact absurd hi (by simp)) hcol
    exact ⟨h.1, h.2.2.1, h.2.2.2⟩
  · intro p hcol hne
    exact runLoop_collided_radii p.earth_gravity p.friction_coefficient
      p.time_step p.center_radius _ p.num_steps _ rfl rfl
      (fun h => absurd rfl h) (fun i hi => absurd hi (by simp)) hcol hne

/-- Witness for C4 (amended): the two concrete collided runs, with their
last recorded radii below the respective thresholds. -/
theorem collided_run_recorded_radii_witness :
    (Plot3D.iterations demoParams 2).2 = Plot3D.IterStatus.collided ∧
    radiusAt (Plot3D.iterations demoParams 2).1.xs
      (Plot3D.iterations demoParams 2).1.ys
      ((Plot3D.iterations demoParams 2).1.xs.length - 1) ≤
        demoParams.center_radius ∧
    (Simulation.run_simulation rsParams).collided = true ∧
    radiusAt (Simulation.run_simulation rsParams).xs
      (Simulation.run_simulation rsParams).ys
      ((Simulation.run_simulation rsParams).xs.length - 1) <
        rsParams.center_radius := by
  have h1 : (Plot3D.iterations demoParams 2).2 = Plot3D.IterStatus.collided := by
    rw [iterations_demo]
  have h2 : (Simulation.run_simulation rsParams).collided = true := by
    rw [run_sim_demo]
  have h3 : (Simulation.run_simulation rsParams).xs ≠ [] := by
    rw [run_sim_demo]
    simp
  exact ⟨h1, (collided_run_recorded_radii.1 demoParams 2 h1).2.1, h2,
    (collided_run_recorded_radii.2 rsParams h2 h3).1⟩

/-! ### C10: the recorded height lags the recorded position by one step -/

lemma heightAt_append (R T F cr : ℝ) (b : ℝ × ℝ) (xs ys : List ℝ)
    (x' y' : ℝ) (i : ℕ) (hpos : 0 < i) (hi : i - 1 < xs.length)
    (hlen : ys.length = xs.length) :
    heightAt R T F cr b (xs ++ [x']) (ys ++ [y']) i =
      heightAt R T F cr b xs ys i := by
  rw [heightAt, heightAt, if_neg (by omega), if_neg (by omega)]
  rw [getD_append_left xs [x'] _ hi, getD_append_left ys [y'] _ (hlen ▸ hi)]

/-- Invariant of the membrane loop: each `zs` entry is the height at the
position recorded one index earlier (at the base position `b` for index
`0`). -/
lemma iterLoop_zs_offset (g dt R T F cr fric m : ℝ) (b : ℝ × ℝ) :
    ∀ (fuel : ℕ) (s : Plot3D.IterState),
      s.ys.length = s.xs.length →
      s.zs.length = s.xs.length →
      (s.xs = [] → s.x = b.1 ∧ s.y = b.2) →
      (s.xs ≠ [] → s.xs.getLast? = some s.x ∧ s.ys.getLast? = some s.y) →
      (∀ i, i < s.zs.length →
        s.zs.getD i 0 = heightAt R T F cr b s.xs s.ys i) →
      (Plot3D.iterLoop g dt R T F cr fric m fuel s).1.ys.length =
        (Plot3D.iterLoop g dt R T F cr fric m fuel s).1.xs.length ∧
      (Plot3D.iterLoop g dt R T F cr fric m fuel s).1.zs.length =
        (Plot3D.iterLoop g dt R T F cr fric m fuel s).1.xs.length ∧
      (∀ i, i < (Plot3D.iterLoop g dt R T F cr fric m fuel s).1.zs.length →
        (Plot3D.iterLoop g dt R T F cr fric m fuel s).1.zs.getD i 0 =
          heightAt R T F cr b (Plot3D.iterLoop g dt R T F cr fric m fuel s).1.xs
            (Plot3D.iterLoop g dt R T F cr fric m fuel s).1.ys i) := by
  intro fuel
  induction fuel with
  | zero =>
    intro s h1 h2 _ _ h5
    exact ⟨h1.trans rfl, h2, h5⟩
  | succ n ih =>
    intro s hlen hzlen hbase hlast hz
    have hlen' : (Plot3D.iterStep g dt R T F cr fric m s).ys.length =
        (Plot3D.iterStep g dt R T F cr fric m s).xs.length := by
      rw [iterStep_xs, iterStep_ys]
      simp [hlen]
    have hzlen' : (Plot3D.iterStep g dt R T F cr fric m s).zs.length =
        (Plot3D.iterStep g dt R T F cr fric m s).xs.length := by
      rw [iterStep_xs, iterStep_zs]
      simp [hzlen]
    have hbase' : (Plot3D.iterStep g dt R T F cr fric m s).xs = [] →
        (Plot3D.iterStep g dt R T F cr fric m s).x = b.1 ∧
        (Plot3D.iterStep g dt R T F cr fric m s).y = b.2 := by
      intro he
      rw [iterStep_xs] at he
      exact absurd he (by simp)
    have hlast' : (Plot3D.iterStep g dt R T F cr fric m s).xs ≠ [] →
        (Plot3D.iterStep g dt R T F cr fric m s).xs.getLast? =
          some (Plot3D.iterStep g dt R T F cr fric m s).x ∧
        (Plot3D.iterStep g dt R T F cr fric m s).ys.getLast? =
          some (Plot3D.iterStep g dt R T F cr fric m s).y := by
      intro _
      constructor
      · rw [iterStep_xs]
        exact getLast?_append_singleton _ _
      · rw [iterStep_ys]
        exact getLast?_append_singleton _ _
    have hz' : ∀ i, i < (Plot3D.iterStep g dt R T F cr fric m s).zs.length →
        (Plot3D.iterStep g dt R T F cr fric m s).zs.getD i 0 =
          heightAt R T F cr b (Plot3D.iterStep g dt R T F cr fric m s).xs
            (Plot3D.iterStep g dt R T F cr fric m s).ys i := by
      intro i hi
      rw [hzlen', iterStep_xs] at hi
      simp only [List.length_append, List.length_singleton] at hi
      by_cases hil : i < s.zs.length
      · rw [iterStep_zs, getD_append_left s.zs _ _ hil]
        rw [hz i hil]
        by_cases hi0 : i = 0
        · subst hi0
          rw [iterStep_xs, iterStep_ys, heightAt, heightAt, if_pos rfl,
            if_pos rfl]
        · rw [iterStep_xs, iterStep_ys,
            heightAt_append R T F cr b s.xs s.ys _ _ i (by omega)
              (by rw [← hzlen]; omega) hlen]
      · have hieq : i = s.zs.length := by
          rw [hzlen] at hil ⊢
          omega
        subst hieq
        rw [iterStep_zs, getD_append_length]
        by_cases h0 : s.zs.length = 0
        · have hxe : s.xs = [] := by
            rw [← List.length_eq_zero, ← hzlen]
            exact h0
          obtain ⟨hbx, hby⟩ := hbase hxe
          rw [h0, heightAt, if_pos rfl, hbx, hby]
        · have hxe : s.xs ≠ [] := by
            intro he
            rw [he] at hzlen
            simp at hzlen
            exact h0 (by rw [hzlen]; rfl)
          obtain ⟨hgx, hgy⟩ := hlast hxe
          rw [heightAt, if_neg h0, iterStep_xs, iterStep_ys]
          rw [getD_append_left s.xs _ _ (by rw [← hzlen]; omega),
            getD_append_left s.ys _ _ (by rw [hlen, ← hzlen]; omega)]
          rw [hzlen, getD_of_getLast? s.xs s.x hgx]
          rw [show s.xs.length - 1 = s.ys.length - 1 by rw [hlen]]
          rw [getD_of_getLast? s.ys s.y hgy]
    rw [iterLoop_succ]
    simp only []
    by_cases h1 : Real.sqrt ((Plot3D.iterStep g dt R T F cr fric m s).x *
        (Plot3D.iterStep g dt R T F cr fric m s).x +
        (Plot3D.iterStep g dt R T F cr fric m s).y *
        (Plot3D.iterStep g dt R T F cr fric m s).y) ≥ R
    · rw [if_pos h1]
      exact ⟨hlen', hzlen', hz'⟩
    · rw [if_neg h1]
      by_cases h2 : Real.sqrt ((Plot3D.iterStep g dt R T F cr fric m s).x *
          (Plot3D.iterStep g dt R T F cr fric m s).x +
          (Plot3D.iterStep g dt R T F cr fric m s).y *
          (Plot3D.iterStep g dt R T F cr fric m s).y) ≤ cr
      · rw [if_pos h2]
        exact ⟨hlen', hzlen', hz'⟩
      · rw [if_neg h2]
        exact ih (Plot3D.iterStep g dt R T F cr fric m s) hlen' hzlen'
          hbase' hlast' hz'

/-- C10: in the trajectory returned by `iterations`, each recorded height
`zs[i]` is the membrane height at the PREVIOUSLY recorded position
(`zs[0]` at the clamped initial position): the loop computes `z` at the
pre-update position and appends it next to the post-update `x`, `y`. -/
theorem iterations_height_offset_by_one (p : Plot3D.SimulationParams)
    (fuel : ℕ) :
    (Plot3D.iterations p fuel).1.zs.length =
      (Plot3D.iterations p fuel).1.xs.length ∧
    (∀ i, i < (Plot3D.iterations p fuel).1.zs.length →
      (Plot3D.iterations p fuel).1.zs.getD i 0 =
        heightAt p.surface_radius p.surface_tension p.center_weight
          p.center_radius
          ((Plot3D.clampInitial p.x0 p.y0 p.surface_radius).1,
           (Plot3D.clampInitial p.x0 p.y0 p.surface_radius).2.1)
          (Plot3D.iterations p fuel).1.xs (Plot3D.iterations p fuel).1.ys i) := by
  have h := iterLoop_zs_offset p.g p.time_step p.surface_radius
    p.surface_tension p.center_weight p.center_radius p.friction_coef
    (Plot3D.iterMass p.g p.center_weight)
    ((Plot3D.clampInitial p.x0 p.y0 p.surface_radius).1,
     (Plot3D.clampInitial p.x0 p.y0 p.surface_radius).2.1) fuel
    { x := (Plot3D.clampInitial p.x0 p.y0 p.surface_radius).1,
      y := (Plot3D.clampInitial p.x0 p.y0 p.surface_radius).2.1,
      vx := p.vx0, vy := p.vy0, xs := [], ys := [], zs := [], steps_run := 0 }
    rfl rfl (fun _ => ⟨rfl, rfl⟩) (fun h => absurd rfl h)
    (fun i hi => absurd hi (by simp))
  exact ⟨h.2.1, h.2.2⟩

/-- Witness for C10: in the concrete collided membrane run, `zs[1]` is
the height at the first recorded position `(0.35, 0)`, not at the second
recorded position. -/
theorem iterations_height_offset_by_one_witness :
    1 < (Plot3D.iterations demoParams 2).1.zs.length ∧
    (Plot3D.iterations demoParams 2).1.zs.getD 1 0 =
      heightAt demoParams.surface_radius demoParams.surface_tension
        demoParams.center_weight demoParams.center_radius
        ((Plot3D.clampInitial demoParams.x0 demoParams.y0
            demoParams.surface_radius).1,
         (Plot3D.clampInitial demoParams.x0 demoParams.y0
            demoParams.surface_radius).2.1)
        (Plot3D.iterations demoParams 2).1.xs
        (Plot3D.iterations demoParams 2).1.ys 1 := by
  have hlt : 1 < (Plot3D.iterations demoParams 2).1.zs.length := by
    rw [iterations_demo]
    simp
  exact ⟨hlt, (iterations_height_offset_by_one demoParams 2).2 1 hlt⟩
